import Mathlib

/-!
Shallow embedding of the LeverageSlider component (src/src/App.jsx; the file
src/unnamed/part_000 is the same component with min, max hard-coded to 2, 10
and no controlled mode). Numbers are modelled as rationals. JS float division
with a zero denominator yields NaN or Infinity; where that behaviour matters
(zero track width) the mapper is additionally modelled over JSNum, a rational
extended with the three special values.
-/

/-- clamp from the source: Math.min(Math.max(val, min), max). -/
def clamp (val lo hi : ℚ) : ℚ := min (max val lo) hi

/-- Math.round semantics on rationals: round half up, floor(x + 1/2). -/
def jsRound (x : ℚ) : ℚ := ((⌊x + 1/2⌋ : ℤ) : ℚ)

/-- A measured track rectangle (the projection of getBoundingClientRect that
the component reads). -/
structure Rect where
  left : ℚ
  width : ℚ
deriving DecidableEq

/-- getTrackBounds: returns the measured rectangle, or left 0 and width 400
when the track ref is unmeasured (trackRef.current is null). -/
def getTrackBounds : Option Rect → Rect
  | none => ⟨0, 400⟩
  | some r => r

/-- leverageToX: ((val - min) / steps) * width, width read from getTrackBounds. -/
def leverageToX (m : Option Rect) (mn steps val : ℚ) : ℚ :=
  ((val - mn) / steps) * (getTrackBounds m).width

/-- xToLeverage: min + (px / width) * steps, width read from getTrackBounds. -/
def xToLeverage (m : Option Rect) (mn steps px : ℚ) : ℚ :=
  mn + (px / (getTrackBounds m).width) * steps

/-- snapToNearest: clamp(Math.round(continuousVal), min, max). -/
def snapToNearest (mn mx c : ℚ) : ℚ := clamp (jsRound c) mn mx

/-- JSNum: a JS double that is either finite (modelled exactly as a rational)
or one of the special values NaN, Infinity, -Infinity. -/
inductive JSNum where
  | nan : JSNum
  | inf : JSNum
  | ninf : JSNum
  | fin : ℚ → JSNum
deriving DecidableEq

/-- jsDiv: division a / b of two finite JS numbers, with the IEEE results for
a zero denominator (0/0 is NaN, otherwise signed Infinity). -/
def jsDiv (a b : ℚ) : JSNum :=
  if b = 0 then
    if a = 0 then JSNum.nan else if 0 < a then JSNum.inf else JSNum.ninf
  else JSNum.fin (a / b)

/-- jsMulFin: multiplication of a JS number by a finite factor
(Infinity times 0 is NaN). -/
def jsMulFin (x : JSNum) (c : ℚ) : JSNum :=
  match x with
  | JSNum.nan => JSNum.nan
  | JSNum.inf => if c = 0 then JSNum.nan else if 0 < c then JSNum.inf else JSNum.ninf
  | JSNum.ninf => if c = 0 then JSNum.nan else if 0 < c then JSNum.ninf else JSNum.inf
  | JSNum.fin q => JSNum.fin (q * c)

/-- jsAddFin: addition of a finite term to a JS number. -/
def jsAddFin (c : ℚ) (x : JSNum) : JSNum :=
  match x with
  | JSNum.nan => JSNum.nan
  | JSNum.inf => JSNum.inf
  | JSNum.ninf => JSNum.ninf
  | JSNum.fin q => JSNum.fin (c + q)

/-- jsLe: the JS comparison a <= b, which is false whenever either side is NaN. -/
def jsLe : JSNum → JSNum → Bool
  | JSNum.nan, _ => false
  | _, JSNum.nan => false
  | JSNum.ninf, _ => true
  | _, JSNum.inf => true
  | JSNum.inf, _ => false
  | JSNum.fin _, JSNum.ninf => false
  | JSNum.fin a, JSNum.fin b => decide (a ≤ b)

/-- xToLeverage under JS float semantics: min + (px / width) * steps, where the
width read from getTrackBounds may be zero. -/
def xToLeverageJS (m : Option Rect) (mn steps px : ℚ) : JSNum :=
  jsAddFin mn (jsMulFin (jsDiv px (getTrackBounds m).width) steps)

/-- leverageToX under JS float semantics: ((val - min) / steps) * width, where
steps may be zero. -/
def leverageToXJS (m : Option Rect) (mn steps val : ℚ) : JSNum :=
  jsMulFin (jsDiv (val - mn) steps) (getTrackBounds m).width

/-- Construction props of the component: optional controlled value, optional
default value, min, max, disabled flag. -/
structure Config where
  value : Option ℚ
  defaultValue : Option ℚ
  mn : ℚ
  mx : ℚ
  disabled : Bool
deriving DecidableEq

/-- steps = max - min, computed once from the props. -/
def Config.steps (cfg : Config) : ℚ := cfg.mx - cfg.mn

/-- Pending settle animation on the thumb motion value: the target position,
the value committed by the onComplete continuation, and whether the
continuation belongs to a drag release (which also clears the dragging flag
and fires onDragEnd). Pending.idle means no animation is in flight; a direct
thumbX.set, as issued during dragging and on controlled sync, cancels any
in-flight animation without running its continuation. -/
inductive Pending where
  | idle : Pending
  | settle : ℚ → ℚ → Bool → Pending
deriving DecidableEq

/-- Mutable state of one widget instance: internalValue (uncontrolled mode
state), the two interaction flags, displayValue, the thumb motion value, and
the pending-animation bookkeeping. -/
structure SliderState where
  internalValue : ℚ
  isDragging : Bool
  isHovering : Bool
  displayValue : ℚ
  thumbX : ℚ
  pending : Pending
deriving DecidableEq

/-- Callbacks observable by the external owner, in firing order. -/
inductive Callback where
  | onChange : ℚ → Callback
  | onDragStart : Callback
  | onDragEnd : ℚ → Callback
deriving DecidableEq

/-- hasOnChange: whether a callback trace contains an onChange invocation. -/
def hasOnChange (l : List Callback) : Bool :=
  l.any fun c => match c with
    | Callback.onChange _ => true
    | _ => false

/-- currentValue: the clamped controlled prop when present, else the internal
uncontrolled state. -/
def currentValue (cfg : Config) (s : SliderState) : ℚ :=
  match cfg.value with
  | some v => clamp v cfg.mn cfg.mx
  | none => s.internalValue

/-- getInitialValue: clamped value prop, else clamped defaultValue, else the
rounded midpoint of the range. -/
def getInitialValue (cfg : Config) : ℚ :=
  match cfg.value with
  | some v => clamp v cfg.mn cfg.mx
  | none =>
    match cfg.defaultValue with
    | some d => clamp d cfg.mn cfg.mx
    | none => jsRound ((cfg.mn + cfg.mx) / 2)

/-- handlePointerDown: no-op when disabled; otherwise re-measures geometry,
clamps the pointer offset into the track, starts dragging (firing
onDragStart), sets the thumb directly and recomputes displayValue by
snapping. -/
def handlePointerDown (cfg : Config) (m : Option Rect) (clientX : ℚ) (s : SliderState) :
    SliderState × List Callback :=
  if cfg.disabled then (s, []) else
  let b := getTrackBounds m
  let relativeX := clamp (clientX - b.left) 0 b.width
  ({ s with isDragging := true, thumbX := relativeX, pending := Pending.idle,
            displayValue := snapToNearest cfg.mn cfg.mx (xToLeverage m cfg.mn cfg.steps relativeX) },
   [Callback.onDragStart])

/-- handlePointerMove: no-op unless dragging and enabled; otherwise sets the
thumb directly to the clamped pointer offset and recomputes displayValue by
snapping. -/
def handlePointerMove (cfg : Config) (m : Option Rect) (clientX : ℚ) (s : SliderState) :
    SliderState × List Callback :=
  if !s.isDragging || cfg.disabled then (s, []) else
  let b := getTrackBounds m
  let relativeX := clamp (clientX - b.left) 0 b.width
  ({ s with thumbX := relativeX, pending := Pending.idle,
            displayValue := snapToNearest cfg.mn cfg.mx (xToLeverage m cfg.mn cfg.steps relativeX) },
   [])

/-- handlePointerUp: invoked both by the in-widget pointerup handler and by
the window-level pointerup safety listener registered while dragging. No-op
unless dragging; otherwise snaps the current thumb position and starts the
release settle animation toward the snapped target. -/
def handlePointerUp (cfg : Config) (m : Option Rect) (s : SliderState) :
    SliderState × List Callback :=
  if !s.isDragging then (s, []) else
  let snapped := snapToNearest cfg.mn cfg.mx (xToLeverage m cfg.mn cfg.steps s.thumbX)
  ({ s with pending := Pending.settle (leverageToX m cfg.mn cfg.steps snapped) snapped true },
   [])

/-- handleLabelTap: no-op when disabled; otherwise sets displayValue to the
tapped integer immediately and starts a settle animation toward it. -/
def handleLabelTap (cfg : Config) (m : Option Rect) (val : ℚ) (s : SliderState) :
    SliderState × List Callback :=
  if cfg.disabled then (s, []) else
  ({ s with displayValue := val,
            pending := Pending.settle (leverageToX m cfg.mn cfg.steps val) val false },
   [])

/-- Key: the keyboard inputs distinguished by handleKeyDown; other stands for
every unrecognized key. -/
inductive Key where
  | arrowRight | arrowUp | arrowLeft | arrowDown | home | endKey | other
deriving DecidableEq

/-- keyStep: the new value handleKeyDown selects for a key from the committed
current value, none for unrecognized keys (the handler returns untouched). -/
def keyStep (cfg : Config) (cur : ℚ) : Key → Option ℚ
  | Key.arrowRight => some (min (cur + 1) cfg.mx)
  | Key.arrowUp => some (min (cur + 1) cfg.mx)
  | Key.arrowLeft => some (max (cur - 1) cfg.mn)
  | Key.arrowDown => some (max (cur - 1) cfg.mn)
  | Key.home => some cfg.mn
  | Key.endKey => some cfg.mx
  | Key.other => none

/-- handleKeyDown: no-op when disabled or on unrecognized keys; otherwise sets
displayValue to the stepped value (computed from currentValue, the committed
value) and starts a settle animation toward it. -/
def handleKeyDown (cfg : Config) (m : Option Rect) (k : Key) (s : SliderState) :
    SliderState × List Callback :=
  if cfg.disabled then (s, []) else
  match keyStep cfg (currentValue cfg s) k with
  | none => (s, [])
  | some newVal =>
    ({ s with displayValue := newVal,
              pending := Pending.settle (leverageToX m cfg.mn cfg.steps newVal) newVal false },
     [])

/-- settleComplete: the onComplete continuation of a settle animation. The
thumb rests at the target; updateValue(commit) writes internalValue in
uncontrolled mode and always fires onChange; a drag-release completion also
re-sets displayValue, clears the dragging flag and fires onDragEnd. -/
def settleComplete (cfg : Config) (s : SliderState) : SliderState × List Callback :=
  match s.pending with
  | Pending.idle => (s, [])
  | Pending.settle targetX commit isRelease =>
    let s1 := { s with thumbX := targetX, pending := Pending.idle }
    let s2 := if cfg.value.isNone then { s1 with internalValue := commit } else s1
    if isRelease then
      ({ s2 with displayValue := commit, isDragging := false },
       [Callback.onChange commit, Callback.onDragEnd commit])
    else (s2, [Callback.onChange commit])

/-- syncControlledValue: the effect that synchronizes displayValue and the
thumb with a controlled value change while not dragging; the thumb is set
directly (no animation), cancelling any pending settle. -/
def syncControlledValue (cfg : Config) (m : Option Rect) (s : SliderState) : SliderState :=
  match cfg.value with
  | none => s
  | some v =>
    if s.isDragging then s
    else
      let cv := clamp v cfg.mn cfg.mx
      { s with displayValue := cv,
               thumbX := leverageToX m cfg.mn cfg.steps cv,
               pending := Pending.idle }

/-- C1: round-trip of the coordinate mapper. For all integers v in [min, max]
with min < max, snapToNearest of xToLeverage of leverageToX of v recovers v,
for any measurement whose track width is positive (including the fallback
width 400 used when the track is unmeasured). -/
theorem roundTripMapper (mn mx v : ℤ) (m : Option Rect)
    (h1 : mn < mx) (h2 : mn ≤ v) (h3 : v ≤ mx)
    (hw : 0 < (getTrackBounds m).width) :
    snapToNearest (mn : ℚ) (mx : ℚ)
      (xToLeverage m (mn : ℚ) ((mx : ℚ) - (mn : ℚ))
        (leverageToX m (mn : ℚ) ((mx : ℚ) - (mn : ℚ)) (v : ℚ))) = (v : ℚ) := by
  have hs : ((mx : ℚ) - (mn : ℚ)) ≠ 0 := sub_ne_zero.mpr (by exact_mod_cast h1.ne')
  have hw' : (getTrackBounds m).width ≠ 0 := ne_of_gt hw
  have hx : xToLeverage m (mn : ℚ) ((mx : ℚ) - (mn : ℚ))
      (leverageToX m (mn : ℚ) ((mx : ℚ) - (mn : ℚ)) (v : ℚ)) = (v : ℚ) := by
    unfold xToLeverage leverageToX
    field_simp
    ring
  rw [hx]
  unfold snapToNearest jsRound clamp
  rw [Int.floor_int_add]
  have hhalf : ⌊(1 / 2 : ℚ)⌋ = 0 := by norm_num
  rw [hhalf, add_zero]
  rw [max_eq_left (by exact_mod_cast h2), min_eq_left (by exact_mod_cast h3)]

/-- roundTripMapper instantiated at min 2, max 10, v 6 and the unmeasured
fallback geometry. -/
theorem roundTripMapper_witness :
    (2 : ℤ) < 10 ∧ (0 : ℚ) < (getTrackBounds none).width ∧
    snapToNearest ((2 : ℤ) : ℚ) ((10 : ℤ) : ℚ)
      (xToLeverage none ((2 : ℤ) : ℚ) (((10 : ℤ) : ℚ) - ((2 : ℤ) : ℚ))
        (leverageToX none ((2 : ℤ) : ℚ) (((10 : ℤ) : ℚ) - ((2 : ℤ) : ℚ)) ((6 : ℤ) : ℚ)))
      = ((6 : ℤ) : ℚ) :=
  ⟨by norm_num, by norm_num [getTrackBounds],
   roundTripMapper 2 10 6 none (by norm_num) (by norm_num) (by norm_num)
     (by norm_num [getTrackBounds])⟩

/-- C8: clamp closure of quantization. snapToNearest is clamp of the rounded
input, and for integers min < max its result is an integer in [min, max],
for every rational input. -/
theorem snapClampClosure (mn mx : ℤ) (x : ℚ) (h : mn < mx) :
    snapToNearest (mn : ℚ) (mx : ℚ) x = clamp (jsRound x) (mn : ℚ) (mx : ℚ) ∧
    ∃ n : ℤ, snapToNearest (mn : ℚ) (mx : ℚ) x = (n : ℚ) ∧ mn ≤ n ∧ n ≤ mx := by
  refine ⟨rfl, ⟨min (max ⌊x + 1 / 2⌋ mn) mx, ?_, ?_, ?_⟩⟩
  · unfold snapToNearest jsRound clamp
    push_cast
    rfl
  · exact le_min (le_max_right _ _) h.le
  · exact min_le_right _ _

/-- snapClampClosure instantiated at min 2, max 10 and input 73/10. -/
theorem snapClampClosure_witness :
    (2 : ℤ) < 10 ∧
    (snapToNearest ((2 : ℤ) : ℚ) ((10 : ℤ) : ℚ) (73 / 10)
       = clamp (jsRound (73 / 10)) ((2 : ℤ) : ℚ) ((10 : ℤ) : ℚ) ∧
     ∃ n : ℤ, snapToNearest ((2 : ℤ) : ℚ) ((10 : ℤ) : ℚ) (73 / 10) = (n : ℚ)
       ∧ 2 ≤ n ∧ n ≤ 10) :=
  ⟨by norm_num, snapClampClosure 2 10 (73 / 10) (by norm_num)⟩

/-- C9 counterexample: for the non-negative track width 0 the claim fails on
the code. In JS float semantics positionToValue maps pixel 0 to NaN (0/0)
and pixel 1 to Infinity (1/0), and NaN <= Infinity is false, so
positionToValue is not non-decreasing at width 0. -/
theorem mapperMonotoneCex :
    (0 : ℚ) ≤ 1 ∧
    xToLeverageJS (some (⟨0, 0⟩ : Rect)) 2 8 0 = JSNum.nan ∧
    xToLeverageJS (some (⟨0, 0⟩ : Rect)) 2 8 1 = JSNum.inf ∧
    jsLe (xToLeverageJS (some (⟨0, 0⟩ : Rect)) 2 8 0)
      (xToLeverageJS (some (⟨0, 0⟩ : Rect)) 2 8 1) = false := by
  norm_num [xToLeverageJS, jsDiv, jsMulFin, jsAddFin, jsLe, getTrackBounds]

/-- C9 amended: valueToPosition is non-decreasing in v for any fixed
non-negative track width, and positionToValue is non-decreasing in p for any
fixed positive track width (at zero width the source divides by zero in JS
floats, see the counterexample). -/
theorem mapperMonotone (m : Option Rect) (mn steps : ℚ) (hs : 0 < steps) :
    (∀ v₁ v₂, 0 ≤ (getTrackBounds m).width → v₁ ≤ v₂ →
      leverageToX m mn steps v₁ ≤ leverageToX m mn steps v₂) ∧
    (∀ p₁ p₂, 0 < (getTrackBounds m).width → p₁ ≤ p₂ →
      xToLeverage m mn steps p₁ ≤ xToLeverage m mn steps p₂) := by
  constructor
  · intro v₁ v₂ hw hv
    unfold leverageToX
    exact mul_le_mul_of_nonneg_right
      (div_le_div_of_nonneg_right (by linarith) hs.le) hw
  · intro p₁ p₂ hw hp
    unfold xToLeverage
    have h := div_le_div_of_nonneg_right hp hw.le
    nlinarith [h, hs.le]

/-- mapperMonotone instantiated at min 2, steps 8, the unmeasured fallback
geometry and two concrete points in each direction. -/
theorem mapperMonotone_witness :
    (0 : ℚ) < 8 ∧
    leverageToX none 2 8 3 ≤ leverageToX none 2 8 7 ∧
    xToLeverage none 2 8 100 ≤ xToLeverage none 2 8 300 :=
  ⟨by norm_num,
   (mapperMonotone none 2 8 (by norm_num)).1 3 7 (by norm_num [getTrackBounds]) (by norm_num),
   (mapperMonotone none 2 8 (by norm_num)).2 100 300 (by norm_num [getTrackBounds]) (by norm_num)⟩

/-- C3 counterexample: for a measured track of zero width the fallback does
not apply. The effective width is 0, not a positive constant, and
positionToValue at pixel 1 divides by zero, returning Infinity. -/
theorem fallbackWidthCex :
    (getTrackBounds (some (⟨0, 0⟩ : Rect))).width = 0 ∧
    xToLeverageJS (some (⟨0, 0⟩ : Rect)) 2 8 1 = JSNum.inf ∧
    xToLeverageJS (some (⟨0, 0⟩ : Rect)) 2 8 0 = JSNum.nan := by
  norm_num [xToLeverageJS, jsDiv, jsMulFin, jsAddFin, getTrackBounds]

/-- C3 amended: when the track is unmeasured, getTrackBounds falls back to the
positive constant width 400, and both mapper directions stay finite (no
division by zero, no NaN or Infinity) for every input, given nonzero steps;
a measured zero width is not guarded (see the counterexample). -/
theorem fallbackWidth (mn steps px v : ℚ) (hs : steps ≠ 0) :
    (getTrackBounds none).width = 400 ∧
    xToLeverageJS none mn steps px = JSNum.fin (xToLeverage none mn steps px) ∧
    leverageToXJS none mn steps v = JSNum.fin (leverageToX none mn steps v) := by
  refine ⟨rfl, ?_, ?_⟩
  · norm_num [xToLeverageJS, xToLeverage, jsDiv, jsMulFin, jsAddFin, getTrackBounds]
  · norm_num [leverageToXJS, leverageToX, jsDiv, jsMulFin, jsAddFin, getTrackBounds, hs]

/-- fallbackWidth instantiated at min 2, steps 8, pixel 100 and value 6. -/
theorem fallbackWidth_witness :
    (8 : ℚ) ≠ 0 ∧
    ((getTrackBounds none).width = 400 ∧
     xToLeverageJS none 2 8 100 = JSNum.fin (xToLeverage none 2 8 100) ∧
     leverageToXJS none 2 8 6 = JSNum.fin (leverageToX none 2 8 6)) :=
  ⟨by norm_num, fallbackWidth 2 8 100 6 (by norm_num)⟩

/-- Helper: with the widget enabled and a recognized key selecting value w
from the committed current value, handleKeyDown sets displayValue to w and
fires nothing, the settle completion fires exactly onChange w, and afterwards
the committed current value is the clamped controlled prop in controlled
mode and w in uncontrolled mode. -/
theorem keyDownSettle (cfg : Config) (m : Option Rect) (k : Key) (s : SliderState) (w : ℚ)
    (hd : cfg.disabled = false)
    (hk : keyStep cfg (currentValue cfg s) k = some w) :
    (handleKeyDown cfg m k s).1.displayValue = w ∧
    (handleKeyDown cfg m k s).2 = [] ∧
    (settleComplete cfg (handleKeyDown cfg m k s).1).2 = [Callback.onChange w] ∧
    currentValue cfg (settleComplete cfg (handleKeyDown cfg m k s).1).1
      = (match cfg.value with
         | some v => clamp v cfg.mn cfg.mx
         | none => w) := by
  have h1 : handleKeyDown cfg m k s
      = ({ s with displayValue := w,
                  pending := Pending.settle (leverageToX m cfg.mn cfg.steps w) w false },
         []) := by
    unfold handleKeyDown
    rw [hk]
    simp [hd]
  rw [h1]
  refine ⟨rfl, rfl, ?_, ?_⟩
  · simp [settleComplete]
  · rcases hv : cfg.value with _ | v <;> simp [settleComplete, currentValue, hv]

/-- C4: deferred commit and drag frame condition. No event handler writes the
committed internalValue or fires onChange synchronously: pointer-move
(dragging or not) preserves internalValue and both interaction flags and
fires no callback at all, and pointer-down, pointer-up, label-tap and
key-down also preserve internalValue with no onChange in their traces. The
commit happens only in settleComplete, the settle animation's completion
continuation: with a release settle pending for value c it writes
internalValue in uncontrolled mode and its trace contains the onChange
notification. -/
theorem deferredCommit (cfg : Config) (m : Option Rect) (x val t c : ℚ) (k : Key)
    (s : SliderState) :
    (handlePointerMove cfg m x s).1.internalValue = s.internalValue ∧
    (handlePointerMove cfg m x s).1.isDragging = s.isDragging ∧
    (handlePointerMove cfg m x s).1.isHovering = s.isHovering ∧
    (handlePointerMove cfg m x s).2 = [] ∧
    (handlePointerDown cfg m x s).1.internalValue = s.internalValue ∧
    hasOnChange (handlePointerDown cfg m x s).2 = false ∧
    (handlePointerUp cfg m s).1.internalValue = s.internalValue ∧
    hasOnChange (handlePointerUp cfg m s).2 = false ∧
    (handleLabelTap cfg m val s).1.internalValue = s.internalValue ∧
    hasOnChange (handleLabelTap cfg m val s).2 = false ∧
    (handleKeyDown cfg m k s).1.internalValue = s.internalValue ∧
    hasOnChange (handleKeyDown cfg m k s).2 = false ∧
    (settleComplete { cfg with value := none }
        { s with pending := Pending.settle t c true }).1.internalValue = c ∧
    hasOnChange (settleComplete cfg { s with pending := Pending.settle t c true }).2
      = true := by
  refine ⟨?_, ?_, ?_, ?_, ?_, ?_, ?_, ?_, ?_, ?_, ?_, ?_, ?_, ?_⟩
  · unfold handlePointerMove
    split <;> rfl
  · unfold handlePointerMove
    split <;> rfl
  · unfold handlePointerMove
    split <;> rfl
  · unfold handlePointerMove
    split <;> rfl
  · unfold handlePointerDown
    split <;> rfl
  · unfold handlePointerDown
    split <;> rfl
  · unfold handlePointerUp
    split <;> rfl
  · unfold handlePointerUp
    split <;> rfl
  · unfold handleLabelTap
    split <;> rfl
  · unfold handleLabelTap
    split <;> rfl
  · unfold handleKeyDown
    split
    · rfl
    · split <;> rfl
  · unfold handleKeyDown
    split
    · rfl
    · split <;> rfl
  · rfl
  · rfl

/-- C5: disabled no-op. With disabled true (under which pointer-down never
fires, so the dragging flag is false), every pointer-down, pointer-move,
pointer-up, label-tap and keyboard event returns the state bit-for-bit
unchanged and fires no callback. -/
theorem disabledNoOp (cfg : Config) (m : Option Rect) (x val : ℚ) (k : Key)
    (s : SliderState) (hd : cfg.disabled = true) (hg : s.isDragging = false) :
    handlePointerDown cfg m x s = (s, []) ∧
    handlePointerMove cfg m x s = (s, []) ∧
    handlePointerUp cfg m s = (s, []) ∧
    handleLabelTap cfg m val s = (s, []) ∧
    handleKeyDown cfg m k s = (s, []) := by
  refine ⟨?_, ?_, ?_, ?_, ?_⟩ <;>
    simp [handlePointerDown, handlePointerMove, handlePointerUp, handleLabelTap,
      handleKeyDown, hd, hg]

/-- disabledNoOp instantiated at a disabled widget, an idle state, and an
ArrowRight key event. -/
theorem disabledNoOp_witness :
    (⟨none, none, 2, 10, true⟩ : Config).disabled = true ∧
    (⟨6, false, false, 6, 200, Pending.idle⟩ : SliderState).isDragging = false ∧
    handleKeyDown ⟨none, none, 2, 10, true⟩ none Key.arrowRight
        ⟨6, false, false, 6, 200, Pending.idle⟩
      = (⟨6, false, false, 6, 200, Pending.idle⟩, []) :=
  ⟨rfl, rfl,
   (disabledNoOp ⟨none, none, 2, 10, true⟩ none 0 5 Key.arrowRight
     ⟨6, false, false, 6, 200, Pending.idle⟩ rfl rfl).2.2.2.2⟩

/-- C6: stuck-drag safety. From any dragging state, handlePointerUp — which
is invoked by the in-widget pointerup handler and equally by the
window-level pointerup safety listener registered while dragging — schedules
the release settle toward the snapped target, and its completion clears the
dragging flag and runs the commit protocol (onChange, then onDragEnd); the
machine does not stay in Dragging once any pointer-release signal is
observed. -/
theorem stuckDragSafety (cfg : Config) (m : Option Rect) (s : SliderState)
    (hg : s.isDragging = true) :
    (handlePointerUp cfg m s).1.pending
      = Pending.settle
          (leverageToX m cfg.mn cfg.steps
            (snapToNearest cfg.mn cfg.mx (xToLeverage m cfg.mn cfg.steps s.thumbX)))
          (snapToNearest cfg.mn cfg.mx (xToLeverage m cfg.mn cfg.steps s.thumbX)) true ∧
    (settleComplete cfg (handlePointerUp cfg m s).1).1.isDragging = false ∧
    (settleComplete cfg (handlePointerUp cfg m s).1).2
      = [Callback.onChange
           (snapToNearest cfg.mn cfg.mx (xToLeverage m cfg.mn cfg.steps s.thumbX)),
         Callback.onDragEnd
           (snapToNearest cfg.mn cfg.mx (xToLeverage m cfg.mn cfg.steps s.thumbX))] := by
  have h1 : handlePointerUp cfg m s
      = ({ s with pending := Pending.settle
                    (leverageToX m cfg.mn cfg.steps
                      (snapToNearest cfg.mn cfg.mx (xToLeverage m cfg.mn cfg.steps s.thumbX)))
                    (snapToNearest cfg.mn cfg.mx (xToLeverage m cfg.mn cfg.steps s.thumbX))
                    true },
         []) := by
    unfold handlePointerUp
    simp [hg]
  rw [h1]
  exact ⟨rfl, rfl, rfl⟩

/-- stuckDragSafety instantiated at a dragging state whose thumb rests at
pixel 200 of the fallback 400-wide track. -/
theorem stuckDragSafety_witness :
    (⟨6, true, false, 6, 200, Pending.idle⟩ : SliderState).isDragging = true ∧
    (settleComplete ⟨none, none, 2, 10, false⟩
        (handlePointerUp ⟨none, none, 2, 10, false⟩ none
          ⟨6, true, false, 6, 200, Pending.idle⟩).1).1.isDragging = false :=
  ⟨rfl,
   (stuckDragSafety ⟨none, none, 2, 10, false⟩ none
     ⟨6, true, false, 6, 200, Pending.idle⟩ rfl).2.1⟩

/-- C7: controlled-mode external sync. For a controlled widget that is not
dragging, the sync effect sets displayValue to the clamped external value
and sets the thumb directly to leverageToX of that value, with no animation
pending. -/
theorem controlledSync (cfg : Config) (m : Option Rect) (s : SliderState) (v : ℚ)
    (hv : cfg.value = some v) (hg : s.isDragging = false) :
    (syncControlledValue cfg m s).displayValue = clamp v cfg.mn cfg.mx ∧
    (syncControlledValue cfg m s).thumbX
      = leverageToX m cfg.mn cfg.steps (clamp v cfg.mn cfg.mx) ∧
    (syncControlledValue cfg m s).pending = Pending.idle := by
  simp [syncControlledValue, hv, hg]

/-- controlledSync instantiated at a controlled widget whose external value
changes to 9 while the state still displays 6. -/
theorem controlledSync_witness :
    (⟨some 9, none, 2, 10, false⟩ : Config).value = some 9 ∧
    (⟨6, false, false, 6, 200, Pending.idle⟩ : SliderState).isDragging = false ∧
    (syncControlledValue ⟨some 9, none, 2, 10, false⟩ none
        ⟨6, false, false, 6, 200, Pending.idle⟩).displayValue = clamp 9 2 10 :=
  ⟨rfl, rfl,
   (controlledSync ⟨some 9, none, 2, 10, false⟩ none
     ⟨6, false, false, 6, 200, Pending.idle⟩ 9 rfl rfl).1⟩

/-- C2 counterexample: the claim as stated is false on the code. At committed
value max (10, uncontrolled), ArrowRight schedules a settle whose completion
does invoke onChange (with the unchanged value 10): the post-settle trace
contains an onChange invocation instead of being empty, while displayValue
stays at 10. -/
theorem keyboardBoundaryCex :
    hasOnChange (settleComplete ⟨none, none, 2, 10, false⟩
        (handleKeyDown ⟨none, none, 2, 10, false⟩ none Key.arrowRight
          ⟨10, false, false, 10, 400, Pending.idle⟩).1).2 = true ∧
    (handleKeyDown ⟨none, none, 2, 10, false⟩ none Key.arrowRight
        ⟨10, false, false, 10, 400, Pending.idle⟩).1.displayValue = 10 := by
  norm_num [handleKeyDown, keyStep, currentValue, settleComplete, hasOnChange,
    Config.steps, leverageToX, getTrackBounds, clamp]

/-- C2 amended: keyboard boundary. With the widget enabled, when the
committed current value equals max, ArrowRight or ArrowUp leaves the value
and displayValue at max and the handler itself fires no callback, but when
the settle animation completes onChange fires once with the unchanged value
max — the code does not suppress the same-value notification; symmetrically
at min for ArrowLeft and ArrowDown. -/
theorem keyboardBoundary (cfg : Config) (m : Option Rect) (s : SliderState)
    (hd : cfg.disabled = false) :
    (currentValue cfg s = cfg.mx → ∀ k, (k = Key.arrowRight ∨ k = Key.arrowUp) →
      (handleKeyDown cfg m k s).1.displayValue = cfg.mx ∧
      (handleKeyDown cfg m k s).2 = [] ∧
      (settleComplete cfg (handleKeyDown cfg m k s).1).2 = [Callback.onChange cfg.mx] ∧
      currentValue cfg (settleComplete cfg (handleKeyDown cfg m k s).1).1 = cfg.mx) ∧
    (currentValue cfg s = cfg.mn → ∀ k, (k = Key.arrowLeft ∨ k = Key.arrowDown) →
      (handleKeyDown cfg m k s).1.displayValue = cfg.mn ∧
      (handleKeyDown cfg m k s).2 = [] ∧
      (settleComplete cfg (handleKeyDown cfg m k s).1).2 = [Callback.onChange cfg.mn] ∧
      currentValue cfg (settleComplete cfg (handleKeyDown cfg m k s).1).1 = cfg.mn) := by
  constructor
  · intro hmax k hk
    have hw : keyStep cfg (currentValue cfg s) k = some cfg.mx := by
      rcases hk with rfl | rfl <;>
        simp [keyStep, hmax, min_eq_right (by linarith : cfg.mx ≤ cfg.mx + 1)]
    obtain ⟨d1, d2, d3, d4⟩ := keyDownSettle cfg m k s cfg.mx hd hw
    refine ⟨d1, d2, d3, ?_⟩
    rw [d4]
    rcases hv : cfg.value with _ | v
    · simp
    · simp only [currentValue, hv] at hmax
      simpa using hmax
  · intro hmin k hk
    have hw : keyStep cfg (currentValue cfg s) k = some cfg.mn := by
      rcases hk with rfl | rfl <;>
        simp [keyStep, hmin, max_eq_right (by linarith : cfg.mn - 1 ≤ cfg.mn)]
    obtain ⟨d1, d2, d3, d4⟩ := keyDownSettle cfg m k s cfg.mn hd hw
    refine ⟨d1, d2, d3, ?_⟩
    rw [d4]
    rcases hv : cfg.value with _ | v
    · simp
    · simp only [currentValue, hv] at hmin
      simpa using hmin

/-- keyboardBoundary instantiated at an uncontrolled widget committed at
max 10 receiving ArrowRight. -/
theorem keyboardBoundary_witness :
    (⟨none, none, 2, 10, false⟩ : Config).disabled = false ∧
    currentValue ⟨none, none, 2, 10, false⟩ ⟨10, false, false, 10, 400, Pending.idle⟩
      = (⟨none, none, 2, 10, false⟩ : Config).mx ∧
    (settleComplete ⟨none, none, 2, 10, false⟩
        (handleKeyDown ⟨none, none, 2, 10, false⟩ none Key.arrowRight
          ⟨10, false, false, 10, 400, Pending.idle⟩).1).2
      = [Callback.onChange 10] :=
  ⟨rfl, rfl,
   ((keyboardBoundary ⟨none, none, 2, 10, false⟩ none
       ⟨10, false, false, 10, 400, Pending.idle⟩ rfl).1 rfl Key.arrowRight
     (Or.inl rfl)).2.2.1⟩

/-- C10: keyboard steps are computed from the committed current value, not
from displayValue. With the widget enabled and the committed value inside
[min, max], each arrow key sets displayValue to the clamp of the committed
value plus or minus 1 (Home and End to min and max), whatever in-flight
displayValue the state holds — so displayValue can move backwards relative
to an unsettled larger displayValue. -/
theorem keyStepFromCommitted (cfg : Config) (m : Option Rect) (s : SliderState)
    (hd : cfg.disabled = false)
    (h1 : cfg.mn ≤ currentValue cfg s) (h2 : currentValue cfg s ≤ cfg.mx) :
    (handleKeyDown cfg m Key.arrowRight s).1.displayValue
      = clamp (currentValue cfg s + 1) cfg.mn cfg.mx ∧
    (handleKeyDown cfg m Key.arrowUp s).1.displayValue
      = clamp (currentValue cfg s + 1) cfg.mn cfg.mx ∧
    (handleKeyDown cfg m Key.arrowLeft s).1.displayValue
      = clamp (currentValue cfg s - 1) cfg.mn cfg.mx ∧
    (handleKeyDown cfg m Key.arrowDown s).1.displayValue
      = clamp (currentValue cfg s - 1) cfg.mn cfg.mx ∧
    (handleKeyDown cfg m Key.home s).1.displayValue = cfg.mn ∧
    (handleKeyDown cfg m Key.endKey s).1.displayValue = cfg.mx := by
  have hru : clamp (currentValue cfg s + 1) cfg.mn cfg.mx
      = min (currentValue cfg s + 1) cfg.mx := by
    unfold clamp
    rw [max_eq_left (by linarith)]
  have hld : clamp (currentValue cfg s - 1) cfg.mn cfg.mx
      = max (currentValue cfg s - 1) cfg.mn := by
    unfold clamp
    rw [min_eq_left (max_le (by linarith) (h1.trans h2))]
  refine ⟨?_, ?_, ?_, ?_, ?_, ?_⟩ <;>
    simp [handleKeyDown, keyStep, hd, hru, hld]

/-- keyStepFromCommitted instantiated at an uncontrolled widget committed at
5 whose in-flight displayValue is still 9: ArrowRight yields displayValue
clamp(5+1) = 6, moving the display backwards. -/
theorem keyStepFromCommitted_witness :
    ((2 : ℚ) ≤ 5 ∧ (5 : ℚ) ≤ 10) ∧
    (handleKeyDown ⟨none, none, 2, 10, false⟩ none Key.arrowRight
        ⟨5, false, false, 9, 350, Pending.idle⟩).1.displayValue
      = clamp (5 + 1) 2 10 :=
  ⟨⟨by norm_num, by norm_num⟩,
   (keyStepFromCommitted ⟨none, none, 2, 10, false⟩ none
     ⟨5, false, false, 9, 350, Pending.idle⟩ rfl
     (by norm_num [currentValue]) (by norm_num [currentValue])).1⟩
